import Mathlib

/-!
Shallow embedding of `src/node.rs` of the `inmemorytree` repository: the
B-link-tree node structure `NodeInner<T>` and the `BTreeNode` trait
implementation on `Node<T> = RwSynchronized<NodeInner<T>>` (`create`,
`has_key`, `is_root`, `set_root`, `move_right`, `set_children`, `set_keys`,
`would_overflow`, `would_underflow`, `set_right_link`, `set_out_link`).

The `RwSynchronized` wrapper only mediates latching; every trait method reads
or writes the wrapped `NodeInner` through `data_ptr()`, so each method is
embedded as a pure function on `NodeInner` (mutators become state
transformers returning the updated node).
-/

namespace InMemoryTree

/-- Modelled from the spec: `LatchType` lives in `crate::sync`, which is not
among the given sources. The spec describes shared (read) and exclusive
(write) latch acquisition modes; `move_right` receives the mode as a
parameter. -/
inductive LatchType : Type where
  | shared : LatchType
  | exclusive : LatchType
deriving DecidableEq

/-- The node payload `NodeInner<T>` from `src/node.rs`: minimum order, root
flag, the key vector, the child vector, and the optional right and out
links. In Rust the children and links are reference-counted
`RwSynchronized<NodeInner<T>>` pointers; here the pointed-to nodes appear
structurally. -/
inductive NodeInner (T : Type) : Type where
  | mk (min_ord : Nat) (root : Bool) (keys : List T)
      (children : List (NodeInner T))
      (right_link : Option (NodeInner T))
      (out_link : Option (NodeInner T)) : NodeInner T

/-- Field projection for `min_ord`. -/
def NodeInner.min_ord {T : Type} : NodeInner T → Nat
  | .mk m _ _ _ _ _ => m

/-- Field projection for `root`. -/
def NodeInner.root {T : Type} : NodeInner T → Bool
  | .mk _ r _ _ _ _ => r

/-- Field projection for `keys`. -/
def NodeInner.keys {T : Type} : NodeInner T → List T
  | .mk _ _ k _ _ _ => k

/-- Field projection for `children`. -/
def NodeInner.children {T : Type} : NodeInner T → List (NodeInner T)
  | .mk _ _ _ c _ _ => c

/-- Field projection for `right_link`. -/
def NodeInner.right_link {T : Type} : NodeInner T → Option (NodeInner T)
  | .mk _ _ _ _ rl _ => rl

/-- Field projection for `out_link`. -/
def NodeInner.out_link {T : Type} : NodeInner T → Option (NodeInner T)
  | .mk _ _ _ _ _ ol => ol

/-- `NodeInner::new(min_ord)`: all fields empty or none, `root = false`,
`min_ord` as given. -/
def NodeInner.new {T : Type} (min_ord : Nat) : NodeInner T :=
  .mk min_ord false [] [] none none

/-- `create(min_ord)`: `RwSynchronized::init(NodeInner::new(min_ord))`. The
wrapper adds only the latch, so in the embedding `create` is
`NodeInner.new`. -/
def create {T : Type} (min_ord : Nat) : NodeInner T :=
  NodeInner.new min_ord

/-- One iteration state of Rust's `slice::binary_search_by` loop, fuelled by
the initial interval width (the loop strictly shrinks `right - left` each
round, so `xs.length` rounds always suffice, and on fuel exhaustion
`left = right` holds and the returned `Err(left)` coincides with the loop's
own exit). -/
def binary_search_loop {T : Type} [LinearOrder T]
    (xs : List T) (key : T) (left right fuel : Nat) : Except Nat Nat :=
  match fuel with
  | 0 => Except.error left
  | Nat.succ fuel' =>
    if left < right then
      let mid := left + (right - left) / 2
      match xs.get? mid with
      | none => Except.error left
      | some x =>
        if x < key then binary_search_loop xs key (mid + 1) right fuel'
        else if key < x then binary_search_loop xs key left mid fuel'
        else Except.ok mid
    else Except.error left

/-- Rust's `slice::binary_search(&key)`: `Ok(index)` on a hit, `Err(insertion
point)` on a miss (meaningful when the slice is sorted). -/
def binary_search {T : Type} [LinearOrder T] (xs : List T) (key : T) :
    Except Nat Nat :=
  binary_search_loop xs key 0 xs.length xs.length

/-- Rust's `Result::is_err()` on the binary-search result. -/
def is_err : Except Nat Nat → Bool
  | Except.error _ => true
  | Except.ok _ => false

/-- `has_key` as implemented in `src/node.rs`:
`inner.keys.binary_search(&key).is_err()`. -/
def has_key {T : Type} [LinearOrder T] (n : NodeInner T) (key : T) : Bool :=
  is_err (binary_search n.keys key)

/-- `is_root`: reads the `root` flag. -/
def is_root {T : Type} (n : NodeInner T) : Bool :=
  n.root

/-- `set_root(root)`: writes the `root` field. -/
def set_root {T : Type} (n : NodeInner T) (root : Bool) : NodeInner T :=
  match n with
  | .mk m _ k c rl ol => .mk m root k c rl ol

/-- `move_right(key, latch_type)` as implemented in `src/node.rs`: the body
reads `inner` and then unconditionally returns `Node::create(0)`, a fresh
empty node of minimum order 0. -/
def move_right {T : Type} (n : NodeInner T) (key : T)
    (latch_type : LatchType) : NodeInner T :=
  create 0

/-- `set_children(children)`: writes the `children` field. -/
def set_children {T : Type} (n : NodeInner T)
    (children : List (NodeInner T)) : NodeInner T :=
  match n with
  | .mk m r k _ rl ol => .mk m r k children rl ol

/-- `set_keys(keys)`: writes the `keys` field. -/
def set_keys {T : Type} (n : NodeInner T) (keys : List T) : NodeInner T :=
  match n with
  | .mk m r _ c rl ol => .mk m r keys c rl ol

/-- `would_overflow` as implemented in `src/node.rs`:
`inner.keys.len() == inner.min_ord`. -/
def would_overflow {T : Type} (n : NodeInner T) : Bool :=
  n.keys.length == n.min_ord

/-- `would_underflow` as implemented in `src/node.rs`:
`inner.keys.len() == 2 * inner.min_ord`. -/
def would_underflow {T : Type} (n : NodeInner T) : Bool :=
  n.keys.length == 2 * n.min_ord

/-- `set_right_link(new_right_link)`: writes the `right_link` field. -/
def set_right_link {T : Type} (n : NodeInner T)
    (new_right_link : Option (NodeInner T)) : NodeInner T :=
  match n with
  | .mk m r k c _ ol => .mk m r k c new_right_link ol

/-- `set_out_link(new_out_link)`: writes the `out_link` field. -/
def set_out_link {T : Type} (n : NodeInner T)
    (new_out_link : Option (NodeInner T)) : NodeInner T :=
  match n with
  | .mk m r k c rl _ => .mk m r k c rl new_out_link

/-- A concrete node of minimum order 2 holding the sorted keys 1, 2, 3. -/
def node123 : NodeInner Nat :=
  set_keys (create 2) [1, 2, 3]

/-- A concrete node of minimum order 2 holding the sorted keys 1, 2. -/
def node12 : NodeInner Nat :=
  set_keys (create 2) [1, 2]

/-- A tombstone: a node whose `out_link` is set, pointing at `node123`. -/
def tombstone : NodeInner Nat :=
  set_out_link (create 2) (some node123)

/-- A node of minimum order 1 with strictly ascending keys 1, 2. -/
def sortedNode : NodeInner Nat :=
  set_keys (create 1) [1, 2]

/-- C1: the claim says `has_key(key)` is true iff the key is present in the
node's keys (a binary-search hit). The shipped code returns
`binary_search(&key).is_err()`, the inverse: on the sorted node with keys
[1, 2, 3], the present key 2 yields `has_key = false` and the absent key 5
yields `has_key = true`, contradicting the method's own doc comment
("Check whether the given key is in the node"). -/
theorem c1_has_key_inverted :
    2 ∈ node123.keys ∧ has_key node123 2 = false ∧
    5 ∉ node123.keys ∧ has_key node123 5 = true := by
  decide

/-- C2: the claim says `would_overflow()` is true exactly when the key count
equals `2 * min_ord - 1`. The shipped code tests `keys.len() == min_ord`
instead: on the node with `min_ord = 2` and 3 keys (which does equal
`2 * min_ord - 1`), the code returns false. -/
theorem c2_would_overflow_wrong :
    node123.keys.length = 2 * node123.min_ord - 1 ∧
    would_overflow node123 = false := by
  decide

/-- C3: the claim says `would_underflow()` is true exactly when the key count
equals `min_ord`. The shipped code tests `keys.len() == 2 * min_ord` instead:
on the node with `min_ord = 2` and 2 keys (which does equal `min_ord`), the
code returns false. -/
theorem c3_would_underflow_wrong :
    node12.keys.length = node12.min_ord ∧
    would_underflow node12 = false := by
  decide

/-- C4: the claim says `move_right` on a node already containing the target
key is a no-op returning the same node. The shipped stub unconditionally
returns `Node::create(0)`: on the node with keys [1, 2, 3] (which contains
the target key 2 and, having no right link, owns the key range) the result is
a fresh empty node of minimum order 0, not the input node. -/
theorem c4_move_right_not_noop :
    2 ∈ node123.keys ∧ node123.right_link = none ∧
    move_right node123 2 LatchType.shared = create 0 ∧
    move_right node123 2 LatchType.shared ≠ node123 := by
  refine ⟨by decide, rfl, rfl, fun h => ?_⟩
  have hk := congrArg NodeInner.keys h
  simp [move_right, create, NodeInner.new, node123, set_keys,
    NodeInner.keys] at hk

/-- C5: the claim says `move_right` on a tombstone (a node whose `out_link`
is set) reaches its result by following the out-link. The shipped stub
ignores the out-link (and every other field) and returns `Node::create(0)`:
on a tombstone whose out-link points at `node123`, the result is a fresh
empty node whose keys differ from the out-link target's. -/
theorem c5_move_right_ignores_out_link :
    tombstone.out_link = some node123 ∧
    move_right tombstone 2 LatchType.shared = create 0 ∧
    (move_right tombstone 2 LatchType.shared).keys ≠ node123.keys := by
  refine ⟨rfl, rfl, ?_⟩
  decide

/-- C6: `create(min_ord)` returns an empty, non-root node: `root` is false,
`keys` and `children` are empty, `right_link` and `out_link` are none, and
the stored `min_ord` equals the parameter. -/
theorem c6_create_empty {T : Type} (m : Nat) :
    (create m : NodeInner T).root = false ∧
    (create m : NodeInner T).keys = [] ∧
    (create m : NodeInner T).children = [] ∧
    (create m : NodeInner T).right_link = none ∧
    (create m : NodeInner T).out_link = none ∧
    (create m : NodeInner T).min_ord = m :=
  ⟨rfl, rfl, rfl, rfl, rfl, rfl⟩

/-- C7: each of `set_keys`, `set_children`, `set_right_link`, `set_out_link`
and `set_root` sets exactly its named field to the given value, with no
validation of the value, and leaves every other field (min_ord included)
unchanged. -/
theorem c7_setters_frame {T : Type} (n : NodeInner T) (ks : List T)
    (cs : List (NodeInner T)) (rl ol : Option (NodeInner T)) (b : Bool) :
    ((set_keys n ks).keys = ks ∧ (set_keys n ks).min_ord = n.min_ord ∧
      (set_keys n ks).root = n.root ∧
      (set_keys n ks).children = n.children ∧
      (set_keys n ks).right_link = n.right_link ∧
      (set_keys n ks).out_link = n.out_link) ∧
    ((set_children n cs).children = cs ∧
      (set_children n cs).min_ord = n.min_ord ∧
      (set_children n cs).root = n.root ∧
      (set_children n cs).keys = n.keys ∧
      (set_children n cs).right_link = n.right_link ∧
      (set_children n cs).out_link = n.out_link) ∧
    ((set_right_link n rl).right_link = rl ∧
      (set_right_link n rl).min_ord = n.min_ord ∧
      (set_right_link n rl).root = n.root ∧
      (set_right_link n rl).keys = n.keys ∧
      (set_right_link n rl).children = n.children ∧
      (set_right_link n rl).out_link = n.out_link) ∧
    ((set_out_link n ol).out_link = ol ∧
      (set_out_link n ol).min_ord = n.min_ord ∧
      (set_out_link n ol).root = n.root ∧
      (set_out_link n ol).keys = n.keys ∧
      (set_out_link n ol).children = n.children ∧
      (set_out_link n ol).right_link = n.right_link) ∧
    ((set_root n b).root = b ∧ (set_root n b).min_ord = n.min_ord ∧
      (set_root n b).keys = n.keys ∧
      (set_root n b).children = n.children ∧
      (set_root n b).right_link = n.right_link ∧
      (set_root n b).out_link = n.out_link) := by
  cases n with
  | mk m r k c rl' ol' =>
    repeat' apply And.intro
    all_goals rfl

/-- C8 counterexample: the claim says every node operation (set_keys
included) preserves strictly ascending keys. `set_keys` performs no
validation: on a node whose keys [1, 2] are strictly ascending, setting the
keys to [2, 1] leaves a node whose keys are not strictly ascending. -/
theorem c8_set_keys_breaks_order :
    List.Sorted (fun a b => a < b) sortedNode.keys ∧
    ¬ List.Sorted (fun a b => a < b) (set_keys sortedNode [2, 1]).keys := by
  constructor <;> decide

/-- C8 amended: `create` establishes strictly ascending keys; `set_children`,
`set_right_link`, `set_out_link` and `set_root` preserve them; `set_keys`
leaves strictly ascending keys provided the supplied vector is itself
strictly ascending (the mutator validates nothing, so the caller carries the
order invariant). -/
theorem c8_order_invariant {T : Type} [LinearOrder T] (m : Nat)
    (n : NodeInner T) (ks : List T) (cs : List (NodeInner T))
    (rl ol : Option (NodeInner T)) (b : Bool)
    (h : List.Sorted (fun a b => a < b) n.keys)
    (hks : List.Sorted (fun a b => a < b) ks) :
    List.Sorted (fun a b => a < b) (create m : NodeInner T).keys ∧
    List.Sorted (fun a b => a < b) (set_keys n ks).keys ∧
    List.Sorted (fun a b => a < b) (set_children n cs).keys ∧
    List.Sorted (fun a b => a < b) (set_right_link n rl).keys ∧
    List.Sorted (fun a b => a < b) (set_out_link n ol).keys ∧
    List.Sorted (fun a b => a < b) (set_root n b).keys := by
  cases n with
  | mk m' r k c rl' ol' =>
    exact ⟨List.sorted_nil, hks, h, h, h, h⟩

/-- C8 amended, witness: the amended statement applied at `min_ord = 1`, the
node `sortedNode` (keys [1, 2]) and the strictly ascending replacement keys
[3, 7]. -/
theorem c8_order_invariant_witness :
    List.Sorted (fun a b => a < b) (create 1 : NodeInner Nat).keys ∧
    List.Sorted (fun a b => a < b) (set_keys sortedNode [3, 7]).keys ∧
    List.Sorted (fun a b => a < b) (set_children sortedNode []).keys ∧
    List.Sorted (fun a b => a < b) (set_right_link sortedNode none).keys ∧
    List.Sorted (fun a b => a < b) (set_out_link sortedNode none).keys ∧
    List.Sorted (fun a b => a < b) (set_root sortedNode true).keys :=
  c8_order_invariant 1 sortedNode [3, 7] [] none none true
    (by decide) (by decide)

/-- C9: `has_key` on a freshly created node returns true for every key, since
the shipped implementation reports a binary-search failure and the empty key
vector makes every search fail. -/
theorem c9_has_key_fresh_node {T : Type} [LinearOrder T] (m : Nat) (key : T) :
    has_key (create m) key = true :=
  rfl

/-- C10: for a node whose `min_ord` is at least 1, `would_overflow` (key
count equal to `min_ord` in the code) and `would_underflow` (key count equal
to `2 * min_ord` in the code) cannot both hold, since that would force
`min_ord = 2 * min_ord`, impossible for `min_ord ≥ 1`. -/
theorem c10_overflow_underflow_exclusive {T : Type} (n : NodeInner T)
    (h : 1 ≤ n.min_ord) :
    ¬ (would_overflow n = true ∧ would_underflow n = true) := by
  rintro ⟨ho, hu⟩
  simp only [would_overflow, would_underflow, beq_iff_eq] at ho hu
  omega

/-- C10 witness: the mutual-exclusion theorem applied to the concrete node
`node123`, whose minimum order 2 is at least 1. -/
theorem c10_overflow_underflow_exclusive_witness :
    ¬ (would_overflow node123 = true ∧ would_underflow node123 = true) :=
  c10_overflow_underflow_exclusive node123 (by decide)

end InMemoryTree
